import Mathlib

/-!
Shallow embedding of the core of `download.mjs` (maktabkhooneh-downloader):
the resumable download engine (`ByteLimit`, `getRemoteSizeAndRanges`,
`downloadToFile`), the session-acquisition state machine (`prepareSession`),
the inline login protocol (`loginWithCredentialsInline` with its
`SimpleCookieStore`), and the session-record reader (`readSessionFile`).

Network responses, file-system probe results and verification outcomes are
inputs (scripts/oracles); all functions are executable Lean translations of
the corresponding JavaScript, byte contents are `List Nat`, and JavaScript
truthiness is modelled explicitly where the source relies on it.
-/

namespace MkDl

/-! ## ByteLimit transform (download.mjs lines 674-693)

State of the `ByteLimit` Transform stream: `seen` counts bytes pushed so
far, `hit` is the `_hit` flag (set when the limit is reached, at which point
the stream calls `this.end()` and fires `onLimit`, which destroys the
upstream readable and aborts the fetch), `out` is the concatenation of all
pushed buffers. -/
structure BLState where
  seen : Nat
  hit : Bool
  out : List Nat
deriving DecidableEq, Repr

/-- One `_transform(chunk, enc, cb)` call of `ByteLimit`.  Mirrors the JS:
a non-positive limit passes chunks through; otherwise the chunk is cut to
the remaining budget, pushed, and when the total reaches the limit the
`_hit` flag is set (firing `onLimit` upstream). -/
def blStep (limit : Nat) (st : BLState) (chunk : List Nat) : BLState :=
  if limit = 0 then { st with out := st.out ++ chunk }
  else
    let remaining := limit - st.seen
    if remaining = 0 then st
    else
      let buf := if chunk.length > remaining then chunk.take remaining else chunk
      let seen' := st.seen + buf.length
      let st' : BLState := ⟨seen', st.hit, st.out ++ buf⟩
      if !st'.hit && decide (limit ≤ seen') then { st' with hit := true } else st'

/-- Running the `ByteLimit` stage over the whole sequence of transport
chunks, starting from a fresh stream. -/
def byteLimitRun (limit : Nat) (chunks : List (List Nat)) : BLState :=
  chunks.foldl (blStep limit) ⟨0, false, []⟩

/-! ## Character-level string helpers

Lean's built-in `String` functions (`splitOn`, `trim`, `toLower`,
`toNat?`) do not reduce inside the kernel, so the handful of string
manipulations the source performs are implemented here over
`String.data` (`List Char`).  The inputs involved (header values, cookie
lines, email addresses) are ASCII, for which these agree with the
JavaScript operations. -/

/-- `String.prototype.toLowerCase()` for ASCII text. -/
def lowerStr (s : String) : String := ⟨s.data.map Char.toLower⟩

def trimChars (cs : List Char) : List Char :=
  ((cs.dropWhile Char.isWhitespace).reverse.dropWhile Char.isWhitespace).reverse

/-- `String.prototype.trim()`. -/
def trimStr (s : String) : String := ⟨trimChars s.data⟩

def startsWithSeq : List Char → List Char → Bool
  | [], _ => true
  | _ :: _, [] => false
  | p :: ps, c :: cs => p == c && startsWithSeq ps cs

/-- `String.prototype.includes(pat)` on character lists. -/
def containsSeq (pat : List Char) : List Char → Bool
  | [] => startsWithSeq pat []
  | c :: cs => startsWithSeq pat (c :: cs) || containsSeq pat cs

/-- Split at the first occurrence of `sep`: the prefix before it and, when
`sep` occurs, the remainder after it (`indexOf` + `slice` in the JS). -/
def splitAtFirst (sep : Char) : List Char → List Char × Option (List Char)
  | [] => ([], none)
  | c :: rest =>
    if c == sep then ([], some rest)
    else
      let r := splitAtFirst sep rest
      (c :: r.1, r.2)

def digitVal (c : Char) : Option Nat :=
  if 48 ≤ c.toNat ∧ c.toNat ≤ 57 then some (c.toNat - 48) else none

def digitsToNatAux : Nat → List Char → Option Nat
  | acc, [] => some acc
  | acc, c :: cs =>
    match digitVal c with
    | some d => digitsToNatAux (acc * 10 + d) cs
    | none => none

/-- `parseInt(s, 10)` restricted to the plain decimal numerals that the
numeric headers involved actually carry. -/
def parseDecimal (s : String) : Option Nat :=
  match s.data with
  | [] => none
  | cs => digitsToNatAux 0 cs

/-! ## Remote size / range probe (download.mjs lines 237-261)

`getRemoteSizeAndRanges` first issues a HEAD request; on `res.ok` it parses
`content-length` (JS: `len ? parseInt(len, 10) : undefined`, so an absent or
empty header yields no size) and checks whether the lowercased
`accept-ranges` header contains `"bytes"`.  If HEAD fails it falls back to
a single-byte ranged GET; a 206 answer yields the total from the
`content-range` suffix (modelled as the already-extracted number, since the
regex match there is plain digit scanning) and `acceptRanges = true`. -/
structure RemoteInfo where
  size : Option Nat
  acceptRanges : Bool
deriving DecidableEq, Repr

/-- Outcome of the two network probes that `getRemoteSizeAndRanges` may
issue: the HEAD request and the fallback one-byte ranged GET. -/
structure ProbeEnv where
  headOk : Bool
  headContentLength : Option String
  headAcceptRanges : Option String
  fallbackOk : Bool
  fallbackStatus : Nat
  fallbackTotal : Option Nat
deriving DecidableEq, Repr

/-- `(res.headers.get('accept-ranges') || '').toLowerCase().includes('bytes')`:
`splitOn` produces more than one piece exactly when the pattern occurs. -/
def hasBytesToken (o : Option String) : Bool :=
  containsSeq "bytes".data (lowerStr (o.getD "")).data

/-- `const size = len ? parseInt(len, 10) : undefined` for a decimal header. -/
def parseContentLength (o : Option String) : Option Nat :=
  match o with
  | none => none
  | some l => if l = "" then none else parseDecimal l

def getRemoteSizeAndRanges (p : ProbeEnv) : RemoteInfo :=
  if p.headOk then
    ⟨parseContentLength p.headContentLength, hasBytesToken p.headAcceptRanges⟩
  else if p.fallbackOk ∧ p.fallbackStatus = 206 then
    ⟨p.fallbackTotal, true⟩
  else
    ⟨none, false⟩

/-! ## Resumable download engine (download.mjs lines 697-866)

The two on-disk artifacts of one task: the destination file (`filePath`)
and the in-progress partial file (`tmpPath = filePath + '.part'`).  `none`
means the file does not exist. -/
structure FS where
  finalFile : Option (List Nat)
  partFile : Option (List Nat)
deriving DecidableEq, Repr

/-- The outcomes of `downloadToFile`: the strings `'exists'` and
`'downloaded'`, or the error thrown after the final attempt. -/
inductive Outcome
  | exists'
  | downloaded
  | fatal
deriving DecidableEq, Repr

/-- The transport's answer to one GET attempt: `ok`/`status`/`hasBody` from
the `fetch` response, the body chunks actually delivered, and whether the
stream errors out after delivering them (timeout, reset, ...). -/
structure AttemptResponse where
  ok : Bool
  status : Nat
  hasBody : Bool
  chunks : List (List Nat)
  streamFails : Bool
deriving DecidableEq, Repr

/-- One scripted attempt: the GET response plus whether the finalization
`fs.promises.rename` and the fallback `fs.promises.copyFile` would fail. -/
structure AttemptEnv where
  resp : AttemptResponse
  renameFails : Bool
  copyFails : Bool
deriving DecidableEq, Repr

/-- The mutable state of `downloadToFile` threaded through the attempt
loop.  `existingTmpSize` / `existingFinalSize` are the stat results taken
before the loop and only ever updated where the JS updates them.
`getCount` counts GET fetches issued (ghost), and `trace` records, for each
attempt, the resume offset it used together with the actual length of the
partial file at the start of that attempt (ghost, used to state the
partial-file invariant). -/
structure LoopState where
  fs : FS
  existingTmpSize : Nat
  existingFinalSize : Nat
  getCount : Nat
  trace : List (Nat × Nat)
deriving DecidableEq, Repr

/-- Result of one loop body: either a `return` with an outcome, or a caught
error that lets the loop retry. -/
inductive AttemptOut
  | done (o : Outcome) (st : LoopState)
  | failed (st : LoopState)
deriving DecidableEq, Repr

def optLen (o : Option (List Nat)) : Nat := (o.map List.length).getD 0

/-- Finalization (download.mjs lines 828-838 and 845-853): rename the
partial to the destination; on error fall back to `copyFile`; both `try`
blocks swallow errors; then `unlink(tmpPath)` is attempted regardless (the
unlink itself succeeds whenever the partial still exists, and its error is
swallowed when it does not).  Always returns `'downloaded'`. -/
def finalizeFile (env : AttemptEnv) (content : List Nat) (st : LoopState) : AttemptOut :=
  if env.renameFails = false then
    .done .downloaded { st with fs := ⟨some content, none⟩ }
  else if env.copyFails = false then
    .done .downloaded { st with fs := ⟨some content, none⟩ }
  else
    .done .downloaded { st with fs := ⟨st.fs.finalFile, none⟩ }

/-- One iteration of the attempt loop of `downloadToFile` (lines 714-864):
resume-offset decision (including moving a completed file back into the
partial slot when the server supports ranges), the GET, the ok/body check,
the range-honoured check, the streaming write (through `ByteLimit` when
sampling), and finalization.  A thrown error becomes `.failed` with the
partial file left on disk exactly as the JS leaves it. -/
def runAttempt (sampleBytes : Nat) (probe : RemoteInfo) (env : AttemptEnv)
    (st : LoopState) : AttemptOut :=
  let dec : Nat × LoopState :=
    if sampleBytes > 0 then (0, st)
    else if st.existingTmpSize > 0 then (st.existingTmpSize, st)
    else if st.existingFinalSize > 0 then
      if probe.acceptRanges then
        (st.existingFinalSize,
         { st with fs := ⟨none, st.fs.finalFile⟩,
                   existingTmpSize := st.existingFinalSize,
                   existingFinalSize := 0 })
      else (0, st)
    else (0, st)
  let resumeOffset := dec.1
  let st1 := dec.2
  let st2 := { st1 with getCount := st1.getCount + 1,
                        trace := st1.trace ++ [(resumeOffset, optLen st1.fs.partFile)] }
  let r := env.resp
  if r.ok = false ∨ r.hasBody = false then
    .failed st2
  else if resumeOffset > 0 ∧ r.status ≠ 206 then
    .failed { st2 with fs := ⟨st2.fs.finalFile, none⟩, existingTmpSize := 0 }
  else
    let base : List Nat :=
      if sampleBytes > 0 ∨ resumeOffset = 0 then [] else st2.fs.partFile.getD []
    if sampleBytes > 0 then
      let bl := byteLimitRun sampleBytes r.chunks
      if bl.hit = true ∨ r.streamFails = false then
        finalizeFile env (base ++ bl.out) st2
      else
        .failed { st2 with fs := ⟨st2.fs.finalFile, some (base ++ bl.out)⟩ }
    else
      if r.streamFails = true then
        .failed { st2 with fs := ⟨st2.fs.finalFile, some (base ++ r.chunks.flatten)⟩ }
      else
        finalizeFile env (base ++ r.chunks.flatten) st2

/-- The retry loop: one script entry per attempt, so the script length plays
the role of `maxRetries`; when the last attempt fails the error propagates
(`.fatal`).  The inter-attempt backoff sleep has no observable effect and is
not modelled. -/
def dlAttempts (sampleBytes : Nat) (probe : RemoteInfo) :
    List AttemptEnv → LoopState → Outcome × LoopState
  | [], st => (.fatal, st)
  | env :: rest, st =>
    match runAttempt sampleBytes probe env st with
    | .done o st' => (o, st')
    | .failed st' => dlAttempts sampleBytes probe rest st'

def initLoop (fs0 : FS) : LoopState :=
  ⟨fs0, optLen fs0.partFile, optLen fs0.finalFile, 0, []⟩

/-- `remoteInfo.size && existingFinalSize >= remoteInfo.size`: JS truthiness
makes a known size of `0` fail the first conjunct. -/
def remoteSizeMet (probe : RemoteInfo) (localSize : Nat) : Bool :=
  match probe.size with
  | some s => decide (s ≠ 0) && decide (s ≤ localSize)
  | none => false

/-- `downloadToFile(url, filePath, referer, maxRetries, sampleBytes, label)`
(lines 697-866).  `probe` is the (memoized) result of
`getRemoteSizeAndRanges` for this URL, `script` supplies one transport
response per attempt.  Pre-flight: an existing non-empty destination
short-circuits `'exists'` when sampling, and for full downloads when the
probed size is truthy and already covered by the local file. -/
def downloadToFile (probe : RemoteInfo) (script : List AttemptEnv)
    (sampleBytes : Nat) (fs0 : FS) : Outcome × LoopState :=
  let existingFinalSize := optLen fs0.finalFile
  if existingFinalSize > 0 ∧ sampleBytes > 0 then
    (.exists', initLoop fs0)
  else if sampleBytes = 0 ∧ existingFinalSize > 0 ∧
      remoteSizeMet probe existingFinalSize = true then
    (.exists', initLoop fs0)
  else
    dlAttempts sampleBytes probe script (initLoop fs0)

/-! ## SimpleCookieStore (download.mjs lines 419-433)

An insertion-ordered map with JS `Map.set` semantics: updating an existing
key keeps its position, a new key is appended. -/
abbrev CookieStore := List (String × String)

def storeSet (m : CookieStore) (k v : String) : CookieStore :=
  if m.any (fun p => p.1 == k) then
    m.map (fun p => if p.1 == k then (k, v) else p)
  else m ++ [(k, v)]

/-- `setCookieLine(line)`: take the segment before the first `;`, split it
at the first `=`; skip the line when there is no `=` or the trimmed name is
empty; otherwise upsert the trimmed name/value pair.  Malformed lines are
ignored silently. -/
def setCookieLine (m : CookieStore) (line : String) : CookieStore :=
  if line = "" then m
  else
    let seg := (splitAtFirst ';' line.data).1
    match splitAtFirst '=' seg with
    | (_, none) => m
    | (k, some v) =>
      let key : String := ⟨trimChars k⟩
      let value : String := ⟨trimChars v⟩
      if key = "" then m else storeSet m key value

/-- `applySetCookie(arr)`: fold `setCookieLine` over the raw header lines. -/
def applySetCookie (m : CookieStore) (lines : List String) : CookieStore :=
  lines.foldl setCookieLine m

def getCookie (m : CookieStore) (k : String) : Option String :=
  (m.find? (fun p => p.1 == k)).map Prod.snd

/-! ## Inline login protocol (download.mjs lines 462-570) -/

/-- JS truthiness filter for an optional string (`s || null`). -/
def truthyOptStr (o : Option String) : Option String :=
  match o with
  | some s => if s = "" then none else some s
  | none => none

/-- The errors `loginWithCredentialsInline` can throw, one constructor per
`throw` site, carrying exactly what the message interpolates. -/
inductive LoginErr
  | csrfUnavailable
  | invalidJson (step : Nat) (status : Nat)
  | precheckFailed (status message : String)
  | unsupportedFlow (message : String)
  | loginRejected (message : String)
  | noSessionCookie
deriving DecidableEq, Repr

/-- One scripted JSON endpoint response: HTTP status, raw `set-cookie`
lines, and the parsed `{status, message}` body (`none` = invalid JSON). -/
structure JsonStep where
  status : Nat
  setCookies : List String
  json : Option (String × String)
deriving Repr

/-- The scripted server behaviour one login run observes: the login page
GET, the core-data fallback GET (its cookies and the `auth.csrf` field of
its JSON body), and the two POST steps. -/
structure LoginScript where
  loginPageCookies : List String
  coreDataCookies : List String
  coreDataCsrf : Option String
  checkUser : JsonStep
  loginAuth : JsonStep
deriving Repr

/-- Steps 0/0b: visit the login page, read `csrftoken` from the jar; if
falsy, hit the core-data endpoint, preferring the csrf from its JSON body
over a cookie (`csrf = csrf || j2?.auth?.csrf || null`, then
`csrf = store.get('csrftoken') || null`). -/
def csrfPhase (s : LoginScript) : CookieStore × Option String :=
  let st := applySetCookie [] s.loginPageCookies
  match truthyOptStr (getCookie st "csrftoken") with
  | some c => (st, some c)
  | none =>
    let st2 := applySetCookie st s.coreDataCookies
    (st2, truthyOptStr s.coreDataCsrf <|> truthyOptStr (getCookie st2 "csrftoken"))

/-- The jar after the check-active-user response cookies are applied. -/
def checkStore (s : LoginScript) : CookieStore :=
  applySetCookie (csrfPhase s).1 s.checkUser.setCookies

/-- The jar after the login-authentication response cookies are applied. -/
def authStore (s : LoginScript) : CookieStore :=
  applySetCookie (checkStore s) s.loginAuth.setCookies

/-- Step 2 (login-authentication) and the final cookie composition
(lines 537-569): require JSON `status == 'success'`, require a `sessionid`
cookie in the jar, and build `ACTIVE_COOKIE` from exactly the `csrftoken`
cookie (falling back to the token obtained earlier) and the `sessionid`
cookie. -/
def loginAuthStep (s : LoginScript) (csrf : String) : Except LoginErr String :=
  match s.loginAuth.json with
  | none => .error (.invalidJson 2 s.loginAuth.status)
  | some (st2, msg2) =>
    if st2 = "success" then
      match truthyOptStr (getCookie (authStore s) "sessionid") with
      | none => .error .noSessionCookie
      | some sid =>
        let ct := (truthyOptStr (getCookie (authStore s) "csrftoken")).getD csrf
        .ok ("csrftoken=" ++ ct ++ "; sessionid=" ++ sid)
    else .error (.loginRejected msg2)

/-- `loginWithCredentialsInline(email, password)`: the whole protocol.  On
success the returned string is the value assigned to `ACTIVE_COOKIE`; any
`.error` is a thrown `Error` and leaves `ACTIVE_COOKIE` untouched. -/
def loginInline (s : LoginScript) : Except LoginErr String :=
  match (csrfPhase s).2 with
  | none => .error .csrfUnavailable
  | some csrf =>
    match s.checkUser.json with
    | none => .error (.invalidJson 1 s.checkUser.status)
    | some (st1, msg1) =>
      if st1 = "success" then
        if msg1 = "get-pass" then loginAuthStep s csrf
        else .error (.unsupportedFlow msg1)
      else .error (.precheckFailed st1 msg1)

/-! ## Session record file (download.mjs lines 368-394) -/

/-- A JSON value, as produced by `JSON.parse`. -/
inductive Json
  | null
  | bool (b : Bool)
  | num (n : Int)
  | str (s : String)
  | arr (elems : List Json)
  | obj (fields : List (String × Json))
deriving Repr

/-- JavaScript truthiness of a JSON value (objects and arrays are truthy,
`null` / `false` / `0` / `""` are falsy). -/
def Json.truthy : Json → Bool
  | .null => false
  | .bool b => b
  | .num n => n != 0
  | .str s => s ≠ ""
  | .arr _ => true
  | .obj _ => true

/-- Property access `v[k]`: `none` models JS `undefined` (absent field or
access on a non-object). -/
def Json.getField : Json → String → Option Json
  | .obj fields, k => (fields.find? (fun p => p.1 == k)).map Prod.snd
  | _, _ => none

def truthyField (o : Option Json) : Bool := (o.map Json.truthy).getD false

def isStringField : Option Json → Bool
  | some (.str _) => true
  | _ => false

/-- `data.updated || new Date().toISOString()` of the legacy upgrade. -/
def legacyUpdated (now : String) : Option Json → Json
  | some u => if u.truthy then u else .str now
  | none => .str now

/-- `readSessionFile(file)`: `parsed` is `none` when the read or
`JSON.parse` threw (both land in the empty `catch`); a value whose `users`
field is truthy is returned as-is; otherwise a value whose `cookie` field
is a string is upgraded in memory to the multi-user shape under the
`'default'` key; anything else yields `null`. -/
def readSessionFile (now : String) (parsed : Option Json) : Option Json :=
  match parsed with
  | none => none
  | some data =>
    if data.truthy && truthyField (data.getField "users") then
      some data
    else if data.truthy && isStringField (data.getField "cookie") then
      some (.obj [("users", .obj [("default", .obj
              [("cookie", (data.getField "cookie").getD .null),
               ("updated", legacyUpdated now (data.getField "updated"))])]),
            ("lastUsed", .str "default")])
    else none

/-! ## Session acquisition state machine (download.mjs lines 572-657)

`prepareSession` is modelled over oracles for its external effects: the
`COOKIE` env/file override, the parsed session file (already in the
multi-user shape `prepareSession` consumes), a verification oracle saying
which cookie values make `fetchCoreData` report an authenticated session,
and the scripted result of `loginWithCredentialsInline` (`some c` = the
login would succeed and set `ACTIVE_COOKIE := c`; `none` = it throws).
The result records the `source` tag, the final `ACTIVE_COOKIE`, and ghost
flags for whether the session file was read, whether it was written, and
whether a login was attempted. -/

structure UserEntry where
  cookie : String
  updated : String
deriving DecidableEq, Repr

structure SessionRecord where
  users : List (String × UserEntry)
  lastUsed : Option String
deriving DecidableEq, Repr

structure PrepResult where
  source : String
  active : Option String
  fileRead : Bool
  fileWritten : Bool
  loginAttempted : Bool
deriving DecidableEq, Repr

/-- The placeholder that makes the `COOKIE` constant count as absent. -/
def PLACEHOLDER : String := "PUT_YOUR_COOKIE_HERE"

/-- `COOKIE && COOKIE !== 'PUT_YOUR_COOKIE_HERE'`. -/
def cookiePresent (c : String) : Bool := c ≠ "" && c ≠ PLACEHOLDER

/-- JS truthiness of an optional string value. -/
def truthyStr (o : Option String) : Bool :=
  match o with
  | some s => s ≠ ""
  | none => false

def lookupUser (r : SessionRecord) (k : String) : Option UserEntry :=
  (r.users.find? (fun p => p.1 == k)).map Prod.snd

/-- Step 3 of `prepareSession` (lines 637-650) followed by the final
fall-through (lines 653-656): attempt the inline login only when an email
key and a password are present and `(!ACTIVE_COOKIE || forceLogin)`; on
login success store the session (when a session file is configured) and
verify once more. -/
def prepStep3 (sessionFileGiven : Bool) (verifies : String → Bool)
    (loginResult : Option String) (desired : Option String)
    (userPassword : Option String) (forceLogin : Bool)
    (active : Option String) : PrepResult :=
  if truthyStr desired && truthyStr userPassword && (!truthyStr active || forceLogin) then
    match loginResult with
    | some c =>
      let written := sessionFileGiven && c ≠ ""
      if c ≠ "" && verifies c then
        ⟨"fresh-login", some c, sessionFileGiven, written, true⟩
      else ⟨"none", some c, sessionFileGiven, written, true⟩
    | none => ⟨"none", active, sessionFileGiven, false, true⟩
  else ⟨"none", active, sessionFileGiven, false, false⟩

/-- `prepareSession({userEmail, userPassword, sessionFile, verbose,
courseUrl, forceLogin})`, lines 572-657.  Step 1: a present env/file
cookie is adopted and, if it verifies, wins immediately (before any
session-file I/O); note that it is *not* cleared when verification fails.
Step 2a: a stored entry for the requested user (unless `forceLogin`);
on verification failure `ACTIVE_COOKIE` is cleared.  Step 2b: the
`lastUsed` entry when no user was requested; not cleared on failure.
Step 3: fresh login, then the fall-through. -/
def prepareSession (cookieEnv : String) (sessionFileGiven : Bool)
    (sessionData : Option SessionRecord) (verifies : String → Bool)
    (loginResult : Option String) (userEmail : Option String)
    (userPassword : Option String) (forceLogin : Bool) : PrepResult :=
  if cookiePresent cookieEnv && verifies cookieEnv then
    ⟨"env", some cookieEnv, false, false, false⟩
  else
    let active0 : Option String := if cookiePresent cookieEnv then some cookieEnv else none
    let data : Option SessionRecord := if sessionFileGiven then sessionData else none
    let desired : Option String :=
      if truthyStr userEmail then some (lowerStr (trimStr (userEmail.getD ""))) else none
    let entry2a : Option UserEntry :=
      if data.isSome && truthyStr desired && !forceLogin then
        match lookupUser (data.getD ⟨[], none⟩) (desired.getD "") with
        | some e => if e.cookie ≠ "" then some e else none
        | none => none
      else none
    match entry2a with
    | some e =>
      if verifies e.cookie then
        ⟨"stored-user", some e.cookie, sessionFileGiven, false, false⟩
      else
        prepStep3 sessionFileGiven verifies loginResult desired userPassword forceLogin none
    | none =>
      let entry2b : Option UserEntry :=
        if data.isSome && !truthyStr desired then
          let d := data.getD ⟨[], none⟩
          if truthyStr d.lastUsed then
            match lookupUser d (d.lastUsed.getD "") with
            | some e => if e.cookie ≠ "" then some e else none
            | none => none
          else none
        else none
      match entry2b with
      | some e =>
        if verifies e.cookie then
          ⟨"stored-last", some e.cookie, sessionFileGiven, false, false⟩
        else
          prepStep3 sessionFileGiven verifies loginResult desired userPassword forceLogin
            (some e.cookie)
      | none =>
        prepStep3 sessionFileGiven verifies loginResult desired userPassword forceLogin active0

/-! ## Lemmas about the ByteLimit stage -/

lemma blStep_inv (limit : Nat) (hl : 0 < limit) (pre c : List Nat) :
    blStep limit ⟨min limit pre.length, decide (limit ≤ pre.length), pre.take limit⟩ c =
      ⟨min limit (pre.length + c.length), decide (limit ≤ pre.length + c.length),
       (pre ++ c).take limit⟩ := by
  unfold blStep
  rw [if_neg hl.ne']
  by_cases hA : limit ≤ pre.length
  · rw [if_pos (by omega : limit - min limit pre.length = 0)]
    have h4 : (pre ++ c).take limit = pre.take limit := by
      rw [List.take_append_eq_append_take]
      simp [(by omega : limit - pre.length = 0)]
    simp only [BLState.mk.injEq]
    exact ⟨by omega, by simp only [decide_eq_decide]; omega, h4.symm⟩
  · rw [if_neg (by omega : ¬ limit - min limit pre.length = 0)]
    have hmin : min limit pre.length = pre.length := by omega
    have hpretake : pre.take limit = pre := List.take_of_length_le (by omega)
    have hdec : decide (limit ≤ pre.length) = false := by
      simp only [decide_eq_false_iff_not]; omega
    rw [hmin, hpretake, hdec]
    by_cases hB : c.length > limit - pre.length
    · simp only [if_pos hB]
      have hbuflen : (c.take (limit - pre.length)).length = limit - pre.length := by
        simp only [List.length_take]; omega
      rw [hbuflen]
      have hcond : (!false && decide (limit ≤ pre.length + (limit - pre.length))) = true := by
        simp only [Bool.not_false, Bool.true_and, decide_eq_true_eq]; omega
      rw [hcond, if_pos rfl]
      simp only [BLState.mk.injEq]
      refine ⟨by omega, ?_, ?_⟩
      · exact (decide_eq_true (by omega)).symm
      · rw [List.take_append_eq_append_take, hpretake]
    · simp only [if_neg hB]
      by_cases hC : limit ≤ pre.length + c.length
      · have hcond : (!false && decide (limit ≤ pre.length + c.length)) = true := by
          simp only [Bool.not_false, Bool.true_and, decide_eq_true_eq]; omega
        rw [hcond, if_pos rfl]
        simp only [BLState.mk.injEq]
        refine ⟨by omega, ?_, ?_⟩
        · exact (decide_eq_true (by omega)).symm
        · rw [List.take_append_eq_append_take, hpretake,
            List.take_of_length_le (by omega : c.length ≤ limit - pre.length)]
      · have hcond : (!false && decide (limit ≤ pre.length + c.length)) = false := by
          simp only [Bool.not_false, Bool.true_and, decide_eq_false_iff_not]; omega
        rw [hcond, if_neg (by simp : ¬ false = true)]
        simp only [BLState.mk.injEq]
        refine ⟨by omega, ?_, ?_⟩
        · exact (decide_eq_false (by omega)).symm
        · rw [List.take_append_eq_append_take, hpretake,
            List.take_of_length_le (by omega : c.length ≤ limit - pre.length)]

lemma blRun_inv (limit : Nat) (hl : 0 < limit) (cs : List (List Nat)) (pre : List Nat) :
    List.foldl (blStep limit) ⟨min limit pre.length, decide (limit ≤ pre.length), pre.take limit⟩ cs =
      ⟨min limit (pre ++ cs.flatten).length, decide (limit ≤ (pre ++ cs.flatten).length),
       (pre ++ cs.flatten).take limit⟩ := by
  induction cs generalizing pre with
  | nil => simp
  | cons c cs ih =>
    rw [List.foldl_cons, blStep_inv limit hl pre c]
    have hlen : pre.length + c.length = (pre ++ c).length := (List.length_append pre c).symm
    rw [hlen]
    rw [ih (pre ++ c)]
    have hjoin : (pre ++ c) ++ cs.flatten = pre ++ (c :: cs).flatten := by
      simp [List.flatten_cons, List.append_assoc]
    rw [hjoin]

/-- Behaviour of the `ByteLimit` stage on a whole stream: the bytes that
reach the file writer are exactly the first `limit` bytes of the
concatenated transport chunks, and `_hit` fires exactly when the source
delivered at least `limit` bytes. -/
lemma byteLimitRun_spec (limit : Nat) (hl : 0 < limit) (cs : List (List Nat)) :
    byteLimitRun limit cs =
      ⟨min limit cs.flatten.length, decide (limit ≤ cs.flatten.length), cs.flatten.take limit⟩ := by
  have h := blRun_inv limit hl cs []
  simp only [List.length_nil, List.take_nil, List.nil_append, Nat.min_zero] at h
  rw [byteLimitRun]
  have h2 : decide (limit ≤ 0) = false := by
    simp only [decide_eq_false_iff_not]; omega
  rw [h2] at h
  exact h

/-! ## Lemmas about single successful download attempts -/

/-- A fresh full download (no pre-existing files) whose single attempt
streams to completion: outcome `'downloaded'`, with the finalization
fallbacks deciding where the bytes end up. -/
lemma downloadToFile_full_fresh (probe : RemoteInfo) (cs : List (List Nat)) (rn cp : Bool) :
    downloadToFile probe [⟨⟨true, 200, true, cs, false⟩, rn, cp⟩] 0 ⟨none, none⟩ =
      (.downloaded,
       ⟨(if rn = false then ⟨some cs.flatten, none⟩
         else if cp = false then ⟨some cs.flatten, none⟩ else ⟨none, none⟩ : FS),
        0, 0, 1, [(0, 0)]⟩) := by
  cases rn <;> cases cp <;>
    simp [downloadToFile, optLen, initLoop, dlAttempts, runAttempt, finalizeFile]

/-- A sampling download against a fresh destination whose attempt either
streams to completion or is stopped by the byte limit: outcome
`'downloaded'`, the written bytes are the `ByteLimit` output. -/
lemma downloadToFile_sample_fresh (probe : RemoteInfo) (cs : List (List Nat)) (L : Nat)
    (hL : 0 < L) (sf rn cp : Bool) (part0 : Option (List Nat))
    (hdone : (byteLimitRun L cs).hit = true ∨ sf = false) :
    downloadToFile probe [⟨⟨true, 200, true, cs, sf⟩, rn, cp⟩] L ⟨none, part0⟩ =
      (.downloaded,
       ⟨(if rn = false then ⟨some (cs.flatten.take L), none⟩
         else if cp = false then ⟨some (cs.flatten.take L), none⟩ else ⟨none, none⟩ : FS),
        optLen part0, 0, 1, [(0, optLen part0)]⟩) := by
  have hbl := byteLimitRun_spec L hL cs
  cases sf with
  | false =>
    cases rn <;> cases cp <;>
      simp [downloadToFile, optLen, initLoop, dlAttempts, runAttempt, finalizeFile,
        hL, hL.ne', hbl]
  | true =>
    have h : (byteLimitRun L cs).hit = true := hdone.resolve_right (by simp)
    have h' : decide (L ≤ cs.flatten.length) = true := by rw [hbl] at h; exact h
    have hle0 : L ≤ cs.flatten.length := by simpa using h'
    have hle : L ≤ (List.map List.length cs).sum := by simpa using hle0
    cases rn <;> cases cp <;>
      simp [downloadToFile, optLen, initLoop, dlAttempts, runAttempt, finalizeFile,
        hL, hL.ne', hbl, h', hle]

/-! ## Claims about the download engine -/

/-- C1: for a download invoked with sample byte limit `L > 0` against a
transport that delivers `S` bytes in arbitrary chunks, the `ByteLimit`
stage truncates at exactly `L` total bytes, signals early termination
(`_hit`) exactly when the limit is reached, and the run finalizes as
`'downloaded'` with a destination file of exactly `min L S` bytes — both
when the stream ends on its own and on a deliberate limit-induced early
stop (`streamFails = true` caused by the abort, with the limit reached). -/
theorem c1_sample_truncates_to_min (L : Nat) (hL : 0 < L) (probe : RemoteInfo)
    (cs : List (List Nat)) (part0 : Option (List Nat)) :
    (byteLimitRun L cs).out = cs.flatten.take L ∧
    (byteLimitRun L cs).out.length = min L cs.flatten.length ∧
    (byteLimitRun L cs).hit = decide (L ≤ cs.flatten.length) ∧
    downloadToFile probe [⟨⟨true, 200, true, cs, false⟩, false, false⟩] L ⟨none, part0⟩ =
      (.downloaded,
       ⟨⟨some (cs.flatten.take L), none⟩, optLen part0, 0, 1, [(0, optLen part0)]⟩) ∧
    (L ≤ cs.flatten.length →
      downloadToFile probe [⟨⟨true, 200, true, cs, true⟩, false, false⟩] L ⟨none, part0⟩ =
        (.downloaded,
         ⟨⟨some (cs.flatten.take L), none⟩, optLen part0, 0, 1, [(0, optLen part0)]⟩)) := by
  have hbl := byteLimitRun_spec L hL cs
  refine ⟨by rw [hbl], ?_, by rw [hbl], ?_, ?_⟩
  · rw [hbl]
    simp [List.length_take]
  · have h := downloadToFile_sample_fresh probe cs L hL false false false part0 (Or.inr rfl)
    simpa using h
  · intro hle
    have hhit : (byteLimitRun L cs).hit = true := by
      rw [hbl]; simpa using hle
    have h := downloadToFile_sample_fresh probe cs L hL true false false part0 (Or.inl hhit)
    simpa using h

theorem c1_sample_truncates_to_min_witness :
    (0 < 3) ∧
    downloadToFile ⟨none, false⟩ [⟨⟨true, 200, true, [[1, 2], [3, 4, 5]], false⟩, false, false⟩]
        3 ⟨none, none⟩ =
      (.downloaded, ⟨⟨some [1, 2, 3], none⟩, 0, 0, 1, [(0, 0)]⟩) :=
  ⟨by decide,
   ((c1_sample_truncates_to_min 3 (by decide) ⟨none, false⟩ [[1, 2], [3, 4, 5]]
      none).2.2.2.1).trans (by decide)⟩

/-- C10: when a download attempt's body stream completes (or the sample
limit stops it), `downloadToFile` returns `'downloaded'` even when
finalization fails entirely: the errors of `rename` and of the fallback
`copyFile` are both swallowed and the partial file is unlinked afterwards
regardless, so a run in which both fail reports success while leaving
neither a destination file nor a partial file (both `none`). -/
theorem c10_finalize_swallows_errors :
    (∀ cs : List (List Nat),
      downloadToFile ⟨none, false⟩ [⟨⟨true, 200, true, cs, false⟩, true, true⟩] 0 ⟨none, none⟩ =
        (.downloaded, ⟨⟨none, none⟩, 0, 0, 1, [(0, 0)]⟩)) ∧
    (∀ (cs : List (List Nat)) (L : Nat), 0 < L →
      downloadToFile ⟨none, false⟩ [⟨⟨true, 200, true, cs, false⟩, true, true⟩] L ⟨none, none⟩ =
        (.downloaded, ⟨⟨none, none⟩, 0, 0, 1, [(0, 0)]⟩)) := by
  constructor
  · intro cs
    have h := downloadToFile_full_fresh ⟨none, false⟩ cs true true
    simpa using h
  · intro cs L hL
    have h := downloadToFile_sample_fresh ⟨none, false⟩ cs L hL false true true none (Or.inr rfl)
    simpa [optLen] using h

/-- C2 counterexample: a remote resource whose HEAD probe reports
`content-length: 0` (a *known* remote size, 0) with range support, against
a destination that already holds 3 bytes (3 ≥ 0).  The claim demands
`Exists` with no GET; the code's pre-flight guard
`remoteInfo.size && existingFinalSize >= remoteInfo.size` is falsy for a
zero size, so the run proceeds into the attempt loop, issues a GET
(`getCount = 1`), moves the completed file into the partial slot and ends
`'downloaded'` — not `Exists`. -/
theorem c2_preflight_counterexample :
    (getRemoteSizeAndRanges ⟨true, some "0", some "bytes", false, 0, none⟩).size = some 0 ∧
    downloadToFile (getRemoteSizeAndRanges ⟨true, some "0", some "bytes", false, 0, none⟩)
        [⟨⟨true, 206, true, [[1]], false⟩, false, false⟩] 0 ⟨some [9, 9, 9], none⟩ =
      (.downloaded, ⟨⟨some [9, 9, 9, 1], none⟩, 3, 0, 1, [(3, 3)]⟩) := by
  constructor
  · decide
  · decide

/-- C2 (amended): for every full download whose destination already holds a
completed file of size at least the *known, non-zero* remote size, the
pre-flight short-circuits `'exists'` before any attempt, so no download GET
is issued (the returned state is the initial one: `getCount = 0`, files
untouched). -/
theorem c2_preflight_short_circuit (probe : RemoteInfo) (script : List AttemptEnv)
    (f : List Nat) (part0 : Option (List Nat)) (s : Nat)
    (hsize : probe.size = some s) (hs : s ≠ 0) (hge : s ≤ f.length) :
    downloadToFile probe script 0 ⟨some f, part0⟩ = (.exists', initLoop ⟨some f, part0⟩) ∧
    (initLoop ⟨some f, part0⟩).getCount = 0 := by
  have hf : 0 < f.length := by omega
  refine ⟨?_, rfl⟩
  simp [downloadToFile, optLen, remoteSizeMet, hsize, hs, hge, hf]

theorem c2_preflight_short_circuit_witness :
    downloadToFile ⟨some 3, true⟩ [⟨⟨true, 206, true, [[1]], false⟩, false, false⟩]
        0 ⟨some [9, 9, 9, 9], none⟩ =
      (.exists', initLoop ⟨some [9, 9, 9, 9], none⟩) ∧
    (initLoop ⟨some [9, 9, 9, 9], none⟩).getCount = 0 :=
  c2_preflight_short_circuit ⟨some 3, true⟩ [⟨⟨true, 206, true, [[1]], false⟩, false, false⟩]
    [9, 9, 9, 9] none 3 rfl (by decide) (by decide)

/-- C3: the partial-file invariant is broken by the code.  Start with a
2-byte partial file; attempt 1 resumes at offset 2 (trace entry `(2, 2)`),
appends one byte and then the stream fails, leaving a 3-byte partial file.
`existingTmpSize` is never re-read inside the retry loop, so attempt 2
resumes at the stale offset 2 while the partial file holds 3 bytes (trace
entry `(2, 3)` — offset ≠ length, violating the invariant), requests
`Range: bytes=2-`, and appends the server's bytes `[2, 3]` to the 3-byte
file: the final file is `[0, 1, 2, 2, 3]` with byte 2 duplicated, instead
of the correct `[0, 1, 2, 3]`. -/
theorem c3_stale_resume_offset_bug :
    downloadToFile ⟨none, false⟩
        [⟨⟨true, 206, true, [[2]], true⟩, false, false⟩,
         ⟨⟨true, 206, true, [[2], [3]], false⟩, false, false⟩]
        0 ⟨none, some [0, 1]⟩ =
      (.downloaded, ⟨⟨some [0, 1, 2, 2, 3], none⟩, 2, 0, 2, [(2, 2), (2, 3)]⟩) ∧
    ([0, 1, 2, 2, 3] : List Nat) ≠ [0, 1] ++ [2, 3] := by
  constructor
  · decide
  · decide

/-- C4 counterexample: a resume is requested (2-byte partial, offset 2) and
the response's status is 404 — not `206 partial content` — yet the partial
file is *not* deleted: the `!res.ok` check throws first (line 747), before
the range-honoured check (line 748), so the attempt fails with the partial
file intact.  The claim's "every attempt ... whose status is not 206" is
therefore false as stated. -/
theorem c4_non206_counterexample :
    downloadToFile ⟨none, false⟩ [⟨⟨false, 404, true, [], false⟩, false, false⟩]
        0 ⟨none, some [0, 1]⟩ =
      (.fatal, ⟨⟨none, some [0, 1]⟩, 2, 0, 1, [(2, 2)]⟩) := by
  decide

/-- C4 (amended): for every attempt that requested a resume (non-empty
partial file, offset > 0) and received a response that passed the
success-and-body check (`res.ok` with a body) but whose status is not 206,
the engine deletes the partial file, resets the offset to 0, and fails the
attempt: exactly one attempt (one GET) is consumed and the loop continues
with the remaining script from a state with no partial file and
`existingTmpSize = 0` (so the next attempt starts from byte 0); the
response bytes `cs` are never written anywhere. -/
theorem c4_range_not_honored (probe : RemoteInfo) (p : List Nat) (hp : p ≠ [])
    (s : Nat) (hs : s ≠ 206) (cs : List (List Nat)) (sf rn cp : Bool)
    (rest : List AttemptEnv) :
    downloadToFile probe (⟨⟨true, s, true, cs, sf⟩, rn, cp⟩ :: rest) 0 ⟨none, some p⟩ =
      dlAttempts 0 probe rest ⟨⟨none, none⟩, 0, 0, 1, [(p.length, p.length)]⟩ := by
  have hp' : 0 < p.length := List.length_pos.mpr hp
  simp [downloadToFile, optLen, initLoop, dlAttempts, runAttempt, hp', hp'.ne', hs]

theorem c4_range_not_honored_witness :
    downloadToFile ⟨none, false⟩ [⟨⟨true, 200, true, [[7]], false⟩, false, false⟩]
        0 ⟨none, some [4, 5]⟩ =
      dlAttempts 0 ⟨none, false⟩ [] ⟨⟨none, none⟩, 0, 0, 1, [(2, 2)]⟩ := by
  have h := c4_range_not_honored ⟨none, false⟩ [4, 5] (by decide) 200 (by decide)
    [[7]] false false false []
  simpa using h

theorem c10_finalize_swallows_errors_witness :
    downloadToFile ⟨none, false⟩ [⟨⟨true, 200, true, [[5, 6]], false⟩, true, true⟩] 0 ⟨none, none⟩ =
      (.downloaded, ⟨⟨none, none⟩, 0, 0, 1, [(0, 0)]⟩) ∧
    downloadToFile ⟨none, false⟩ [⟨⟨true, 200, true, [[5, 6]], false⟩, true, true⟩] 2 ⟨none, none⟩ =
      (.downloaded, ⟨⟨none, none⟩, 0, 0, 1, [(0, 0)]⟩) :=
  ⟨c10_finalize_swallows_errors.1 [[5, 6]],
   c10_finalize_swallows_errors.2 [[5, 6]] 2 (by decide)⟩

/-! ## Claims about session acquisition, login and the session file -/

/-- Verification oracle for the C5 scenario: only the cookie the fresh
login would produce verifies as authenticated. -/
def c5Verify : String → Bool := fun c => c == "csrftoken=tok; sessionid=sid"

/-- C5: the code contradicts the claim (and its own comment, line 599:
"If env cookie invalid and we have credentials we can attempt login
below").  With an env-override cookie that fails verification, credentials
supplied, no stored session and `forceLogin` unset, no Active Session is
verified — yet no Fresh Login is performed: step 1 leaves `ACTIVE_COOKIE`
set to the failed override, so the step-3 guard
`!ACTIVE_COOKIE || forceLogin` is false.  The run ends with source
`'none'` and `loginAttempted = false`, even though the scripted login
would have succeeded and verified (third conjunct: the identical inputs
without the override do reach `'fresh-login'`). -/
theorem c5_env_override_blocks_login_bug :
    c5Verify "env-cookie-expired" = false ∧
    prepareSession "env-cookie-expired" true none c5Verify
        (some "csrftoken=tok; sessionid=sid") (some "User@Example.com") (some "hunter2") false =
      ⟨"none", some "env-cookie-expired", true, false, false⟩ ∧
    prepareSession "PUT_YOUR_COOKIE_HERE" true none c5Verify
        (some "csrftoken=tok; sessionid=sid") (some "User@Example.com") (some "hunter2") false =
      ⟨"fresh-login", some "csrftoken=tok; sessionid=sid", true, true, true⟩ := by
  refine ⟨rfl, ?_, ?_⟩
  · rfl
  · rfl

/-- C6: the precheck (check-active-user) gate.  Given any parsed precheck
JSON `{status, message}` (and an obtainable CSRF token), the login
continues into the password step (`loginAuthStep`) exactly when
`status == "success"` and `message == "get-pass"`; any other combination
yields the corresponding precheck error carrying the server's fields
(`precheckFailed status message` when the status is not `"success"`,
otherwise `unsupportedFlow message`), and in that case the run can never
return a cookie — so no Active Session is set by the failed attempt. -/
theorem c6_precheck_gate (s : LoginScript) (c status message : String)
    (hc : (csrfPhase s).2 = some c)
    (hj : s.checkUser.json = some (status, message)) :
    loginInline s =
      (if status = "success" then
        (if message = "get-pass" then loginAuthStep s c
         else .error (.unsupportedFlow message))
       else .error (.precheckFailed status message)) ∧
    (¬ (status = "success" ∧ message = "get-pass") →
      ∀ v : String, loginInline s ≠ .ok v) := by
  have heq : loginInline s =
      (if status = "success" then
        (if message = "get-pass" then loginAuthStep s c
         else .error (.unsupportedFlow message))
       else .error (.precheckFailed status message)) := by
    unfold loginInline
    rw [hc, hj]
  refine ⟨heq, ?_⟩
  intro hfail v
  rw [heq]
  by_cases h1 : status = "success"
  · have h2 : ¬ message = "get-pass" := fun h2 => hfail ⟨h1, h2⟩
    simp [h1, h2]
  · simp [h1]

theorem c6_precheck_gate_witness :
    loginInline ⟨["csrftoken=abc123; Path=/"], [], none,
        ⟨200, [], some ("error", "no-active-user")⟩,
        ⟨200, [], some ("success", "ok")⟩⟩ =
      .error (.precheckFailed "error" "no-active-user") := by
  have h := (c6_precheck_gate ⟨["csrftoken=abc123; Path=/"], [], none,
      ⟨200, [], some ("error", "no-active-user")⟩,
      ⟨200, [], some ("success", "ok")⟩⟩ "abc123" "error" "no-active-user" rfl rfl).1
  exact h.trans (by rfl)

/-- C7: after both POST steps report success, the login fails with the
`noSessionCookie` fatal error when no session-identifying cookie is in the
jar; otherwise the resulting Active Session header is composed of exactly
the CSRF token cookie (falling back to the token obtained at the start)
and the `sessionid` cookie, in the form `csrftoken=...; sessionid=...` —
every other accumulated cookie is dropped. -/
theorem c7_cookie_composition (s : LoginScript) (c m2 : String)
    (hc : (csrfPhase s).2 = some c)
    (hj1 : s.checkUser.json = some ("success", "get-pass"))
    (hj2 : s.loginAuth.json = some ("success", m2)) :
    (truthyOptStr (getCookie (authStore s) "sessionid") = none →
        loginInline s = .error .noSessionCookie) ∧
    (∀ sid, truthyOptStr (getCookie (authStore s) "sessionid") = some sid →
        loginInline s =
          .ok ("csrftoken=" ++
              (truthyOptStr (getCookie (authStore s) "csrftoken")).getD c ++
              "; sessionid=" ++ sid)) := by
  have hstep : loginInline s = loginAuthStep s c := by
    unfold loginInline
    rw [hc, hj1]
    rfl
  constructor
  · intro h
    rw [hstep]
    unfold loginAuthStep
    rw [hj2, h]
    rfl
  · intro sid h
    rw [hstep]
    unfold loginAuthStep
    rw [hj2, h]
    rfl

theorem c7_cookie_composition_witness :
    loginInline ⟨["csrftoken=abc123; Path=/; HttpOnly"], [], none,
        ⟨200, ["extra=1"], some ("success", "get-pass")⟩,
        ⟨200, ["sessionid=s3ss; HttpOnly", "other=2"], some ("success", "ok")⟩⟩ =
      .ok "csrftoken=abc123; sessionid=s3ss" := by
  have h := (c7_cookie_composition ⟨["csrftoken=abc123; Path=/; HttpOnly"], [], none,
      ⟨200, ["extra=1"], some ("success", "get-pass")⟩,
      ⟨200, ["sessionid=s3ss; HttpOnly", "other=2"], some ("success", "ok")⟩⟩
      "abc123" "ok" rfl rfl rfl).2 "s3ss" rfl
  exact h.trans (by rfl)

/-- C8: session-acquisition precedence.  Whenever the env/file override
cookie is present (non-placeholder) and verifies, `prepareSession`
terminates at step 1 with that cookie as the Active Session and source
`'env'` — for *any* session-file contents (including a valid stored-user
entry) — and the result's ghost flags show that no session-record file
read or write happened and no login was attempted. -/
theorem c8_override_precedence (cookieEnv : String) (sessionFileGiven : Bool)
    (sessionData : Option SessionRecord) (verifies : String → Bool)
    (loginResult userEmail userPassword : Option String) (forceLogin : Bool)
    (hp : cookiePresent cookieEnv = true) (hv : verifies cookieEnv = true) :
    prepareSession cookieEnv sessionFileGiven sessionData verifies loginResult
        userEmail userPassword forceLogin =
      ⟨"env", some cookieEnv, false, false, false⟩ := by
  unfold prepareSession
  rw [hp, hv]
  rfl

theorem c8_override_precedence_witness :
    prepareSession "override-cookie" true
        (some ⟨[("user@example.com", ⟨"stored-cookie", "2025-01-01"⟩)],
               some "user@example.com"⟩)
        (fun _ => true) none (some "user@example.com") (some "pw") false =
      ⟨"env", some "override-cookie", false, false, false⟩ :=
  c8_override_precedence "override-cookie" true
    (some ⟨[("user@example.com", ⟨"stored-cookie", "2025-01-01"⟩)],
           some "user@example.com"⟩)
    (fun _ => true) none (some "user@example.com") (some "pw") false (by decide) rfl

/-- C9: `readSessionFile` fails soft and supports both on-disk shapes.
A failed read or parse yields absent (`none` — the function is total, so
nothing is ever thrown to the caller); a value whose `users` field is
truthy is returned as-is; a value with a string `cookie` field is upgraded
in memory to the multi-user shape under the `'default'` key with that
cookie as its entry, `data.updated || now` as its timestamp and
`'default'` as `lastUsed`; every other shape (falsy value, or neither a
truthy `users` field nor a string `cookie` field) also yields absent. -/
theorem c9_read_session_file_shapes (now : String) :
    readSessionFile now none = none ∧
    (∀ d : Json, (d.truthy && truthyField (d.getField "users")) = true →
        readSessionFile now (some d) = some d) ∧
    (∀ (d : Json) (c : String), d.truthy = true →
        truthyField (d.getField "users") = false →
        d.getField "cookie" = some (.str c) →
        readSessionFile now (some d) =
          some (.obj [("users", .obj [("default", .obj
                  [("cookie", .str c),
                   ("updated", legacyUpdated now (d.getField "updated"))])]),
                ("lastUsed", .str "default")])) ∧
    (∀ d : Json, d.truthy = false → readSessionFile now (some d) = none) ∧
    (∀ d : Json, truthyField (d.getField "users") = false →
        isStringField (d.getField "cookie") = false →
        readSessionFile now (some d) = none) := by
  refine ⟨rfl, ?_, ?_, ?_, ?_⟩
  · intro d h
    simp [readSessionFile, h]
  · intro d c ht hu hc
    simp [readSessionFile, isStringField, ht, hu, hc]
  · intro d ht
    simp [readSessionFile, ht]
  · intro d hu hc
    simp [readSessionFile, hu, hc]

theorem c9_read_session_file_shapes_witness :
    readSessionFile "2025-10-11T00:00:00.000Z"
        (some (.obj [("cookie", .str "csrftoken=a; sessionid=b")])) =
      some (.obj [("users", .obj [("default", .obj
              [("cookie", .str "csrftoken=a; sessionid=b"),
               ("updated", .str "2025-10-11T00:00:00.000Z")])]),
            ("lastUsed", .str "default")]) := by
  have h := (c9_read_session_file_shapes "2025-10-11T00:00:00.000Z").2.2.1
    (.obj [("cookie", .str "csrftoken=a; sessionid=b")]) "csrftoken=a; sessionid=b"
    rfl rfl rfl
  exact h.trans (by rfl)

end MkDl
